import Mathlib

/-!
Verification of the request-orchestration core of the ILLBEBACKEND chat server.

The development shallowly embeds the Python sources:
  * `src/models/messages.py`   — the outbound envelope/chunk data model;
  * `src/adapters/openai_adapter.py` — `OpenAIAdapter.generate_response`,
    `_handle_standard_flow`, `_handle_mcp_flow` and `execute_mcp_tool`;
  * `src/mcp/client.py`        — `MCPClient.call_tool` and `_send_request`;
  * `src/mcp/tools/registry.py` — `ToolRegistry.get_tool`;
  * `src/server/websocket_server.py` — `handle_message` and the tool-call
    handling loop of `_handle_chat`.

External effects (the OpenAI chat-completion calls, the HTTP transport of the
tool-server client, `asyncio.wait_for`) are parameters of the embedded
functions: each is represented by the value it returns or the exception it
raises, so an async generator becomes a pure function from those outcomes to
the list of messages it yields.  Serialized JSON payloads (`json.dumps` of a
fixed-shape dict) are represented by structured constructors, which is
faithful because serialization of distinct shapes is injective.
-/

namespace Illbeback

/-- ASCII apostrophe, used to spell Python exception texts that quote names. -/
def sq : String := String.singleton (Char.ofNat 39)

/-! Data model (src/models/messages.py, src/mcp/models.py) -/

/-- Status of server response (`ResponseStatus` in messages.py). -/
inductive ResponseStatus
  | processing
  | chunk
  | complete
  | error
deriving DecidableEq, Repr

/-- Type of a response chunk (the `Literal["text", "tool_call", "tool_result"]`). -/
inductive ChunkType
  | text
  | tool_call
  | tool_result
deriving DecidableEq, Repr

/-- A metadata value: the adapter stores strings and one integer (`count`). -/
inductive MetaVal
  | s (v : String)
  | n (v : Nat)
deriving DecidableEq, Repr

/-- A streamed delta tool call (openai `ChoiceDeltaToolCall`): fields
`index`, `id`, `function.name`, `function.arguments`, `type="function"`. -/
structure DeltaToolCall where
  index : Nat
  id : String
  fname : String
  fargs : String
deriving DecidableEq, Repr

/-- Payload carried in `ResponseChunk.data`.  In the source this is a string;
each constructor stands for one of the fixed serialized shapes the code
produces (`json.dumps` of a fixed-shape dict, or raw text). -/
inductive ChunkData
  | text (s : String)
  | toolCallDump (tc : DeltaToolCall)
  | toolProgress (tool : String)
  | toolResultDump (tool_call_id : String) (output : Option String) (error : Option String)
deriving DecidableEq, Repr

/-- `ResponseChunk` from messages.py. -/
structure ResponseChunk where
  type : Option ChunkType
  data : Option ChunkData
  metadata : Option (List (String × MetaVal))
deriving DecidableEq, Repr

/-- `ServerMessage` from messages.py. -/
structure ServerMessage where
  request_id : String
  status : ResponseStatus
  chunk : Option ResponseChunk
  error : Option String
deriving DecidableEq, Repr

/-- `MCPToolCall` from src/mcp/models.py; `arguments` is a JSON object,
modelled as an association list of string-valued fields. -/
structure MCPToolCall where
  id : String
  name : String
  arguments : List (String × String)
deriving DecidableEq, Repr

/-- `MCPToolResult` from src/mcp/models.py. -/
structure MCPToolResult where
  tool_call_id : String
  output : Option String
  error : Option String
deriving DecidableEq, Repr

/-- `MCPResponse` from src/mcp/models.py: `result` is `Any | None`, `error`
is an optional JSON object (modelled as an association list). -/
structure MCPResponse where
  result : Option String
  error : Option (List (String × String))
deriving DecidableEq, Repr

/-- Python truthiness of an optional string (`None` and `""` are falsy). -/
def pyTruthy : Option String → Bool
  | none => false
  | some v => !v.isEmpty

/-- Python `a or b` for an optional string `a` and default `b`. -/
def pyOrD (a : Option String) (b : String) : String :=
  match a with
  | some v => if v.isEmpty then b else v
  | none => b

/-! Adapter-side types (src/adapters/openai_adapter.py) -/

/-- The adapter's own `ToolResult` pydantic model (`status`, `result`, `error`). -/
structure ToolResult where
  status : String
  result : Option String
  error : Option String
deriving DecidableEq, Repr

/-- A fully materialized tool call from a non-streaming first-phase response
(openai `ChatCompletionMessageToolCall`): `id`, `function.name`,
`function.arguments`. -/
structure OpenAIToolCall where
  id : String
  fname : String
  fargs : String
deriving DecidableEq, Repr

/-- `response.choices[0].message` of the discovery call: optional text
content plus the proposed tool calls (empty list models a falsy
`tool_calls`). -/
structure FirstMessage where
  content : Option String
  tool_calls : List OpenAIToolCall
deriving DecidableEq, Repr

/-- A streamed event of the standard flow (one `chunk.choices[0].delta`):
optional text content plus the delta tool calls. -/
structure StreamEvent where
  content : Option String
  toolCalls : List DeltaToolCall
deriving DecidableEq, Repr

/-- A tool definition as passed to the backend (`{"type": "function", ...}`);
the adapter only forwards these, so name and description suffice. -/
structure ToolDef where
  name : String
  description : String
deriving DecidableEq, Repr

/-- Serialized content of a `role="tool"` message appended for the second
phase: either `json.dumps(result.model_dump())` of the adapter's `ToolResult`
or `json.dumps({"error": str(e)})`. -/
inductive ToolMsgContent
  | resultDump (r : ToolResult)
  | errorObj (e : String)
deriving DecidableEq, Repr

/-- A message of the second-phase conversation fed to the backend. -/
inductive ChatMessage
  | system (content : String)
  | user (content : String)
  | assistantDump (fm : FirstMessage)
  | toolMsg (tool_call_id : String) (content : ToolMsgContent)
deriving DecidableEq, Repr

/-- The outcomes of every external call `generate_response` performs, one
field per await site.  `dispatch` is the outcome of
`asyncio.wait_for(self.execute_mcp_tool(...), timeout)`: `.error e` when it
raises (timeout or other exception, with text `e`), `.ok r` when it returns.
`phase2` receives the second-phase conversation and yields the nonempty text
deltas of the final call plus an exception if the call raised (the
non-streaming branch corresponds to a list of at most one text). -/
structure Backend where
  stream : Bool
  streamEvents : List StreamEvent
  streamExc : Option String
  nonStreamContent : Except String (Option String)
  phase1 : Except String FirstMessage
  dispatch : OpenAIToolCall → Except String ToolResult
  phase2 : List ChatMessage → List String × Option String

/-! Message constructors (the exact envelopes the adapter yields) -/

/-- The initial `processing` envelope: echoes the inbound text in metadata. -/
def processingMsg (request_id message : String) : ServerMessage :=
  ⟨request_id, .processing, some ⟨none, none, some [("user_message", .s message)]⟩, none⟩

/-- A `chunk` envelope with `type="text"`. -/
def textChunkMsg (request_id : String) (s : String) (md : List (String × MetaVal)) :
    ServerMessage :=
  ⟨request_id, .chunk, some ⟨some .text, some (.text s), some md⟩, none⟩

/-- A `chunk` envelope with `type="tool_call"` carrying
`tool_call.model_dump_json()` of a streamed delta. -/
def toolCallChunkMsg (request_id : String) (tc : DeltaToolCall) : ServerMessage :=
  ⟨request_id, .chunk, some ⟨some .tool_call, some (.toolCallDump tc), some []⟩, none⟩

/-- The per-call progress envelope of the two-phase flow:
`type="tool_result"`, data `json.dumps({"tool": name, "status": "complete"})`,
metadata `{"tool_id": tool_call.id}`. -/
def toolProgressMsg (request_id : String) (tc : OpenAIToolCall) : ServerMessage :=
  ⟨request_id, .chunk,
    some ⟨some .tool_result, some (.toolProgress tc.fname), some [("tool_id", .s tc.id)]⟩, none⟩

/-- The fixed first chunk of `_handle_mcp_flow`. -/
def startMsg (request_id : String) : ServerMessage :=
  textChunkMsg request_id "Starting two-phase OpenAI MCP interaction..." [("phase", .s "start")]

/-- The announce chunk: `f"Executing {len(tool_calls)} tool calls..."` with
metadata `{"phase": "tool_execution", "count": len(tool_calls)}`. -/
def announceMsg (request_id : String) (n : Nat) : ServerMessage :=
  textChunkMsg request_id ("Executing " ++ toString n ++ " tool calls...")
    [("phase", .s "tool_execution"), ("count", .n n)]

/-- The marker chunk emitted before the final call. -/
def finalMarkerMsg (request_id : String) : ServerMessage :=
  textChunkMsg request_id "Getting final response with tool results..."
    [("phase", .s "final_response")]

/-- The `complete` terminal envelope. -/
def completeMsg (request_id : String) : ServerMessage :=
  ⟨request_id, .complete, none, none⟩

/-- The `error` terminal envelope produced by `generate_response`'s handler. -/
def errorMsg (request_id e : String) : ServerMessage :=
  ⟨request_id, .error, none, some ("OpenAI error: " ++ e)⟩

/-! _handle_standard_flow -/

/-- Messages yielded for one streamed event: a text chunk when the delta has
truthy content, then one `tool_call` chunk per delta tool call. -/
def eventMsgs (request_id : String) (e : StreamEvent) : List ServerMessage :=
  (match e.content with
   | some c => if c.isEmpty then [] else [textChunkMsg request_id c []]
   | none => []) ++ e.toolCalls.map (toolCallChunkMsg request_id)

/-- `_handle_standard_flow`: streaming mode yields the event messages until
the stream ends or raises; non-streaming mode yields at most one text chunk
(truthy `message.content`).  The second component is the exception that
escaped to `generate_response`'s handler, if any. -/
def handle_standard_flow (b : Backend) (request_id : String)
    (tools : Option (List ToolDef)) : List ServerMessage × Option String :=
  if b.stream then
    ((b.streamEvents.map (eventMsgs request_id)).flatten, b.streamExc)
  else
    match b.nonStreamContent with
    | .error e => ([], some e)
    | .ok content =>
      ((match content with
        | some c => if c.isEmpty then [] else [textChunkMsg request_id c []]
        | none => []), none)

/-! _handle_mcp_flow -/

/-- The per-call loop of `_handle_mcp_flow`: for each proposed call, the
dispatch outcome either yields a `tool_result` progress chunk and a
tool-role message with the serialized result, or (on an escaped exception,
e.g. `asyncio.wait_for` timing out) only a tool-role message with the
serialized error object — the loop continues either way. -/
def dispatchToolCalls (dispatch : OpenAIToolCall → Except String ToolResult)
    (request_id : String) : List OpenAIToolCall → List ServerMessage × List ChatMessage
  | [] => ([], [])
  | tc :: rest =>
    let tail := dispatchToolCalls dispatch request_id rest
    match dispatch tc with
    | .ok result =>
      (toolProgressMsg request_id tc :: tail.1,
       .toolMsg tc.id (.resultDump result) :: tail.2)
    | .error e =>
      (tail.1, .toolMsg tc.id (.errorObj e) :: tail.2)

/-- The second-phase conversation skeleton: system prompt, original user
message, the dumped assistant message, then the tool-role messages. -/
def secondPhaseConv (system_prompt original_message : String) (fm : FirstMessage)
    (toolConv : List ChatMessage) : List ChatMessage :=
  .system system_prompt :: .user original_message :: .assistantDump fm :: toolConv

/-- Result of one flow: the yielded messages, the second-phase conversation
that was fed to the backend (empty if the flow never built one), and the
exception that escaped to `generate_response`'s handler, if any. -/
structure FlowOut where
  msgs : List ServerMessage
  conv : List ChatMessage
  exc : Option String

/-- `_handle_mcp_flow`: start chunk; discovery call; if it proposes no tool
calls, one text chunk with its content (`or "No response generated"` under
Python truthiness) and a normal return; otherwise announce, dispatch each
call in order, the final-response marker, and the truthy text deltas of the
final call. -/
def handle_mcp_flow (b : Backend) (system_prompt request_id original_message : String) :
    FlowOut :=
  match b.phase1 with
  | .error e => ⟨[startMsg request_id], [], some e⟩
  | .ok fm =>
    if fm.tool_calls.isEmpty then
      ⟨[startMsg request_id,
        textChunkMsg request_id (pyOrD fm.content "No response generated") []], [], none⟩
    else
      let td := dispatchToolCalls b.dispatch request_id fm.tool_calls
      let conv := secondPhaseConv system_prompt original_message fm td.2
      let p2 := b.phase2 conv
      ⟨startMsg request_id :: announceMsg request_id fm.tool_calls.length :: td.1
         ++ finalMarkerMsg request_id
         :: (p2.1.filter (fun s => !s.isEmpty)).map (fun s => textChunkMsg request_id s []),
       conv, p2.2⟩

/-! generate_response -/

/-- `if not use_mcp or not tools:` — `tools` is falsy when `None` or empty. -/
def toolsFalsy : Option (List ToolDef) → Bool
  | none => true
  | some l => l.isEmpty

/-- Flow selection inside `generate_response`. -/
def genFlow (b : Backend) (system_prompt message request_id : String)
    (tools : Option (List ToolDef)) (use_mcp : Bool) : FlowOut :=
  if !use_mcp || toolsFalsy tools then
    let s := handle_standard_flow b request_id tools
    ⟨s.1, [], s.2⟩
  else
    handle_mcp_flow b system_prompt request_id message

/-- The terminal envelope: `complete` on normal return of the selected flow,
`error` when an exception escaped to the surrounding handler. -/
def terminalOf (request_id : String) : Option String → ServerMessage
  | none => completeMsg request_id
  | some e => errorMsg request_id e

/-- `OpenAIAdapter.generate_response`: first the `processing` envelope, then
the selected flow's messages, then exactly one terminal envelope. -/
def generate_response (b : Backend) (system_prompt message request_id : String)
    (tools : Option (List ToolDef)) (use_mcp : Bool) : List ServerMessage :=
  processingMsg request_id message ::
    (genFlow b system_prompt message request_id tools use_mcp).msgs
    ++ [terminalOf request_id (genFlow b system_prompt message request_id tools use_mcp).exc]

/-! execute_mcp_tool (src/adapters/openai_adapter.py)

`OpenAIAdapter.execute_mcp_tool` imports the global `mcp_clients` list from
`src.main` (always importable in this program) and, when it is nonempty,
evaluates `client.execute_tool(mcp_tool_call)` for each client in list
order inside a `try/except` that records `str(e)` as the last error.  Only
when the list is empty does it consult the local `ToolRegistry` under the
unmodified function name.  The outermost `try/except` converts any escaped
exception into an error `ToolResult`, so the function never raises. -/

/-- Outcome of evaluating `client.execute_tool(call)` (or a local handler's
`execute(call)`): the value returned, or the text of the exception raised. -/
inductive ClientCallOutcome
  | raises (e : String)
  | returns (r : MCPToolResult)

/-- A remote tool provider as the adapter sees it: its configured name and
the behavior of the `execute_tool` attribute invocation. -/
structure MCPClientModel where
  name : String
  execToolOutcome : MCPToolCall → ClientCallOutcome

/-- `str(e)` of the `AttributeError` raised by `client.execute_tool`: the
class `MCPClient` (src/mcp/client.py) defines `call_tool` but no method
named `execute_tool`, so the attribute access raises. -/
def attrErrMsg : String :=
  sq ++ "MCPClient" ++ sq ++ " object has no attribute " ++ sq ++ "execute_tool" ++ sq

/-- An element of the program's `mcp_clients` list: an `MCPClient` instance,
whose (missing) `execute_tool` attribute always raises `AttributeError`. -/
def mkMCPClient (name : String) : MCPClientModel :=
  ⟨name, fun _ => .raises attrErrMsg⟩

/-- Behavior of a registered local tool handler's `execute` classmethod. -/
def LocalToolBehavior : Type := MCPToolCall → ClientCallOutcome

/-- `ToolRegistry._tools`: the mapping from tool name to handler. -/
def Registry : Type := List (String × LocalToolBehavior)

/-- `ToolRegistry.get_tool`: dictionary lookup by name. -/
def get_tool (registry : Registry) (name : String) : Option LocalToolBehavior :=
  registry.lookup name

/-- `f"Tool '{function_name}' not found"`. -/
def toolNotFoundMsg (name : String) : String :=
  "Tool " ++ sq ++ name ++ sq ++ " not found"

/-- The `for client in mcp_clients:` loop: return a success `ToolResult` from
the first client whose call returns a result with falsy `error`; otherwise
remember the error (result error or exception text) and continue; after the
loop, an error `ToolResult` whose error is `last_error or "Tool ... not
found"`. -/
def tryClients (call : MCPToolCall) (function_name : String) (last_error : Option String) :
    List MCPClientModel → ToolResult
  | [] => ⟨"error", none, some (pyOrD last_error (toolNotFoundMsg function_name))⟩
  | c :: rest =>
    match c.execToolOutcome call with
    | .returns r =>
      if pyTruthy r.error then tryClients call function_name r.error rest
      else ⟨"success", r.output, none⟩
    | .raises e => tryClients call function_name (some e) rest

/-- The parsed pieces of the OpenAI tool-call dict handed to
`execute_mcp_tool`: `tool_call.get("id", "unknown")`, the function name, and
the outcome of `json.loads(tool_call["function"]["arguments"])`. -/
structure ToolCallDict where
  id : Option String
  fname : String
  fargsParse : Except String (List (String × String))

/-- `OpenAIAdapter.execute_mcp_tool`.  An argument-parse failure is caught by
the outer handler.  With a nonempty `mcp_clients` the local registry is never
consulted and the full (possibly namespaced) name is forwarded to each
client; with no clients, the registry is probed under the exact name. -/
def execute_mcp_tool (mcp_clients : List MCPClientModel) (registry : Registry)
    (tool_call : ToolCallDict) : ToolResult :=
  match tool_call.fargsParse with
  | .error e => ⟨"error", none, some e⟩
  | .ok args =>
    let call : MCPToolCall := ⟨tool_call.id.getD "unknown", tool_call.fname, args⟩
    if !mcp_clients.isEmpty then
      tryClients call tool_call.fname none mcp_clients
    else
      match get_tool registry tool_call.fname with
      | some tool_handler =>
        match tool_handler call with
        | .returns r =>
          if pyTruthy r.error then ⟨"error", none, r.error⟩
          else ⟨"success", r.output, none⟩
        | .raises e => ⟨"error", none, some e⟩
      | none => ⟨"error", none, some (toolNotFoundMsg tool_call.fname)⟩

/-! MCPClient.call_tool and _send_request (src/mcp/client.py) -/

/-- Outcome of one `_send_request` exchange.  `raised`: `self.client.post`
or `raise_for_status` raised (connection error, timeout, non-success
status), so no response headers were processed.  `parseFailed`: the
response was delivered and its optional `Mcp-Session-Id` header processed —
and stored when present — but `MCPResponse(**response.json())` then raised
(non-JSON or non-object body).  `responded`: headers processed and body
parsed.  The header is stored by membership, not truthiness, so a present
empty header value is `some ""`. -/
inductive SendOutcome
  | raised (e : String)
  | parseFailed (sessionHeader : Option String) (e : String)
  | responded (sessionHeader : Option String) (body : MCPResponse)

/-- The `Mcp-Session-Id` header of an outcome (none when the transport call
raised before header processing). -/
def sessionHeaderOf : SendOutcome → Option String
  | .raised _ => none
  | .parseFailed h _ => h
  | .responded h _ => h

/-- The headers `_send_request` attaches to a request given the stored
`_session_id`: the token is attached under Python truthiness
(`if self._session_id:`), so a stored empty-string token is not attached. -/
def requestHeaders (session_id : Option String) : List (String × String) :=
  ("Content-Type", "application/json") ::
    (match session_id with
     | some t => if t.isEmpty then [] else [("Mcp-Session-Id", t)]
     | none => [])

/-- The `_session_id` state after one `_send_request`: replaced whenever the
delivered response carries an `Mcp-Session-Id` header — including on the
body-parse-failure path, which stores the header before parsing — and kept
otherwise (in particular when the call raised before header processing). -/
def sessionAfter (session_id : Option String) : SendOutcome → Option String
  | .raised _ => session_id
  | .parseFailed h _ =>
    (match h with
     | some t => some t
     | none => session_id)
  | .responded h _ =>
    (match h with
     | some t => some t
     | none => session_id)

/-- The stored session token after a sequence of `_send_request` exchanges. -/
def sessionTrace (session_id : Option String) (outs : List SendOutcome) : Option String :=
  outs.foldl sessionAfter session_id

/-- `MCPClient.call_tool`: the transport outcome of `_send_request` is the
parameter.  An exception yields a result with `error = str(e)`; a response
with a truthy `error` object yields its `"message"` field (default
`"Unknown error"`); otherwise the response's `result` is the output.  In
every case `tool_call_id` is the id of the input call. -/
def call_tool (transport : Except String MCPResponse) (tool_call : MCPToolCall) :
    MCPToolResult :=
  match transport with
  | .error e => ⟨tool_call.id, none, some e⟩
  | .ok response =>
    match response.error with
    | some errObj =>
      if errObj.isEmpty then ⟨tool_call.id, response.result, none⟩
      else ⟨tool_call.id, none, some ((errObj.lookup "message").getD "Unknown error")⟩
    | none => ⟨tool_call.id, response.result, none⟩

/-! WebSocketServer.handle_message (src/server/websocket_server.py) -/

/-- `ChatPayload` from messages.py. -/
structure ChatPayload where
  text : String
deriving DecidableEq, Repr

/-- `ClientMessage` from messages.py; `action` is `Literal["chat"]`, so a
validated message always has action `chat` (the unsupported-action branch in
`handle_message` is unreachable, as its `type: ignore[unreachable]` notes). -/
structure ClientMessage where
  payload : ChatPayload
  request_id : String
deriving DecidableEq, Repr

/-- One inbound frame, abstracted to the (deterministic) outcome of
`json.loads` plus `ClientMessage(**message_data)`: undecodable JSON
(`json.JSONDecodeError`); decodable JSON that is not a JSON object, where
the `**` unpacking raises `TypeError` — an exception neither inner handler
catches; a decoded object that fails pydantic validation
(`ValidationError`); or a validated message. -/
inductive InboundFrame
  | malformedJson (e : String)
  | nonObjectJson (e : String)
  | invalidEnvelope (e : String)
  | valid (m : ClientMessage)

/-- One outbound frame: either the bare local error dict
`{"status": "error", "error": text}` — which carries no `request_id` field —
or a serialized `ServerMessage`. -/
inductive OutboundFrame
  | localError (e : String)
  | msg (m : ServerMessage)
deriving DecidableEq, Repr

/-- `WebSocketServer.disconnect`: removes the client's record if present
(idempotent once removed). -/
def disconnect (active_connections : List String) (client_id : String) : List String :=
  active_connections.erase client_id

/-- One iteration of `handle_message`'s receive loop: a `json.JSONDecodeError`
or `ValidationError` is answered locally with the bare error dict and touches
nothing else; a validated message is handed to `_handle_chat` (abstracted by
the `chat` parameter); a decodable frame that is not a JSON object raises
`TypeError` past both inner handlers to the outer `except Exception`, which
sends no local error, removes the client from `active_connections`, and ends
the receive loop.  The result is the updated `active_connections` (the
server's only mutable state, the list of registered client ids), the frames
sent, and whether the receive loop exited. -/
def handle_frame (chat : ClientMessage → List ServerMessage) (client_id : String)
    (active_connections : List String) (frame : InboundFrame) :
    List String × List OutboundFrame × Bool :=
  match frame with
  | .malformedJson e =>
      (active_connections, [.localError ("Invalid JSON: " ++ e)], false)
  | .nonObjectJson _ => (disconnect active_connections client_id, [], true)
  | .invalidEnvelope e =>
      (active_connections, [.localError ("Invalid message format: " ++ e)], false)
  | .valid m => (active_connections, (chat m).map .msg, false)

/-- The receive loop of `handle_message` over several frames, concatenating
the sends and stopping when an iteration exits the loop. -/
def handle_frames (chat : ClientMessage → List ServerMessage) (client_id : String)
    (active_connections : List String) :
    List InboundFrame → List String × List OutboundFrame
  | [] => (active_connections, [])
  | f :: rest =>
    let step := handle_frame chat client_id active_connections f
    if step.2.2 then (step.1, step.2.1)
    else
      let next := handle_frames chat client_id step.1 rest
      (next.1, step.2.1 ++ next.2)

/-! The tool-call handling loop of _handle_chat -/

/-- A JSON value, used for the dict produced by
`json.loads(response.chunk.data)` on a dumped delta tool call. -/
inductive JVal
  | str (v : String)
  | num (v : Nat)
  | obj (fields : List (String × JVal))
  | null

/-- The dict `json.loads` produces from `tool_call.model_dump_json()` of a
streamed `ChoiceDeltaToolCall`: top-level keys `index`, `id`, `function`
(with `arguments` and `name` nested inside) and `type` — there is no
top-level `"name"` key. -/
def deltaDumpJson (tc : DeltaToolCall) : List (String × JVal) :=
  [("index", .num tc.index), ("id", .str tc.id),
   ("function", .obj [("arguments", .str tc.fargs), ("name", .str tc.fname)]),
   ("type", .str "function")]

/-- An MCP client as `_handle_chat` uses it: configured name plus the
(total, per `call_tool`) result of `mcp_client.call_tool`. -/
structure WSClientModel where
  name : String
  callToolResult : MCPToolCall → MCPToolResult

/-- The `tool_result` envelope `_handle_chat` sends after executing a call:
data `json.dumps({"tool_call_id": ..., "output": ..., "error": ...})`. -/
def wsToolResultMsg (request_id : String) (r : MCPToolResult) : ServerMessage :=
  ⟨request_id, .chunk,
    some ⟨some .tool_result, some (.toolResultDump r.tool_call_id r.output r.error), some []⟩,
    none⟩

/-- `str(e)` of the `KeyError` raised by `tool_call_data["name"]`. -/
def keyErrName : String := sq ++ "name" ++ sq

/-- Extract a string with a default (used for `.get("id", "")`). -/
def jGetStr (v : Option JVal) (d : String) : String :=
  match v with
  | some (.str s) => s
  | _ => d

/-- Extract an arguments object with default `{}` (used for
`.get("arguments", {})`). -/
def jGetArgs (v : Option JVal) : List (String × String) :=
  match v with
  | some (.obj fields) =>
    fields.filterMap (fun p =>
      match p.2 with
      | .str s => some (p.1, s)
      | _ => none)
  | _ => []

/-- The `for mcp_client in self.mcp_clients:` loop of `_handle_chat`.  Its
body ends in an unconditional `break`, so only the first client is ever
examined.  `tool_call_data["name"]` raises `KeyError` when the dict has no
top-level `"name"` key.  The assignment of `tool_call` happens only inside
the prefix test, while `result = await mcp_client.call_tool(tool_call)` sits
outside it: when the test fails, the previously bound value is reused, and
if none exists the lookup raises (`UnboundLocalError`).  `.error` carries
`str(e)` of the escaped exception; `.ok` carries the messages sent plus the
binding of `tool_call` after the iteration. -/
def toolCallLoop (clients : List WSClientModel) (tool_call_data : List (String × JVal))
    (tool_call : Option MCPToolCall) (request_id : String) :
    Except String (List ServerMessage × Option MCPToolCall) :=
  match clients with
  | [] => .ok ([], tool_call)
  | mcp_client :: _ =>
    match tool_call_data.lookup "name" with
    | none => .error keyErrName
    | some (.str nm) =>
      let bound :=
        if nm.startsWith (mcp_client.name ++ "_") then
          some (⟨jGetStr (tool_call_data.lookup "id") "",
                 nm.replace (mcp_client.name ++ "_") "",
                 jGetArgs (tool_call_data.lookup "arguments")⟩ : MCPToolCall)
        else tool_call
      match bound with
      | none => .error "cannot access local variable referenced before assignment"
      | some tc =>
        .ok ([wsToolResultMsg request_id (mcp_client.callToolResult tc)], bound)
    | some _ => .error "name field is not a string"

/-- The error envelope `_handle_chat`'s handler sends: `f"Chat error: {e}"`. -/
def chatErrorMsg (request_id e : String) : ServerMessage :=
  ⟨request_id, .error, none, some ("Chat error: " ++ e)⟩

/-- The response loop of `_handle_chat` over the adapter's messages: each
message is sent, then a `chunk` of type `tool_call` with dumped-delta data
triggers the client loop; an exception escaping it sends one error envelope
and abandons the rest of the generator. -/
def handle_chat_responses (clients : List WSClientModel) (request_id : String) :
    List ServerMessage → Option MCPToolCall → List ServerMessage
  | [], _ => []
  | m :: rest, tool_call =>
    match m.status, m.chunk with
    | .chunk, some ch =>
      match ch.type, ch.data with
      | some .tool_call, some (.toolCallDump dtc) =>
        (match toolCallLoop clients (deltaDumpJson dtc) tool_call request_id with
         | .error e => [m, chatErrorMsg request_id e]
         | .ok st => m :: st.1 ++ handle_chat_responses clients request_id rest st.2)
      | _, _ => m :: handle_chat_responses clients request_id rest tool_call
    | _, _ => m :: handle_chat_responses clients request_id rest tool_call

/-! Theorems -/

/-- A message is terminal when its status is `complete` or `error`. -/
def isTerminal (m : ServerMessage) : Bool :=
  match m.status with
  | .complete => true
  | .error => true
  | _ => false

theorem isTerminal_of_chunk {m : ServerMessage} (h : m.status = .chunk) :
    isTerminal m = false := by
  unfold isTerminal
  rw [h]

theorem terminalOf_request_id (request_id : String) (o : Option String) :
    (terminalOf request_id o).request_id = request_id := by
  cases o <;> rfl

theorem isTerminal_terminalOf (request_id : String) (o : Option String) :
    isTerminal (terminalOf request_id o) = true := by
  cases o <;> rfl

theorem eventMsgs_status (request_id : String) (ev : StreamEvent) :
    ∀ m ∈ eventMsgs request_id ev, m.status = .chunk ∧ m.request_id = request_id := by
  intro m hm
  unfold eventMsgs at hm
  rcases List.mem_append.mp hm with h | h
  · rcases ev with ⟨c, tcs⟩
    dsimp at h
    cases c with
    | none => exact absurd h (List.not_mem_nil m)
    | some s =>
      dsimp at h
      by_cases hs : s.isEmpty = true
      · rw [if_pos hs] at h
        exact absurd h (List.not_mem_nil m)
      · rw [if_neg hs] at h
        rcases List.mem_singleton.mp h with rfl
        exact ⟨rfl, rfl⟩
  · obtain ⟨tc, _, rfl⟩ := List.mem_map.mp h
    exact ⟨rfl, rfl⟩

theorem handle_standard_flow_status (b : Backend) (request_id : String)
    (tools : Option (List ToolDef)) :
    ∀ m ∈ (handle_standard_flow b request_id tools).1,
      m.status = .chunk ∧ m.request_id = request_id := by
  intro m hm
  cases hb : b.stream with
  | true =>
    simp only [handle_standard_flow, hb, if_true] at hm
    obtain ⟨l, hl, hml⟩ := List.mem_flatten.mp hm
    obtain ⟨ev, _, rfl⟩ := List.mem_map.mp hl
    exact eventMsgs_status request_id ev m hml
  | false =>
    simp only [handle_standard_flow, hb, Bool.false_eq_true, if_false] at hm
    cases hns : b.nonStreamContent with
    | error e => rw [hns] at hm; exact absurd hm (List.not_mem_nil m)
    | ok content =>
      rw [hns] at hm
      dsimp at hm
      cases content with
      | none => exact absurd hm (List.not_mem_nil m)
      | some c =>
        dsimp at hm
        by_cases hc : c.isEmpty = true
        · rw [if_pos hc] at hm
          exact absurd hm (List.not_mem_nil m)
        · rw [if_neg hc] at hm
          rcases List.mem_singleton.mp hm with rfl
          exact ⟨rfl, rfl⟩

theorem dispatchToolCalls_status (dispatch : OpenAIToolCall → Except String ToolResult)
    (request_id : String) (calls : List OpenAIToolCall) :
    ∀ m ∈ (dispatchToolCalls dispatch request_id calls).1,
      m.status = .chunk ∧ m.request_id = request_id := by
  induction calls with
  | nil => intro m hm; exact absurd hm (List.not_mem_nil m)
  | cons tc rest ih =>
    intro m hm
    unfold dispatchToolCalls at hm
    cases hd : dispatch tc with
    | ok r =>
      rw [hd] at hm
      dsimp at hm
      rcases List.mem_cons.mp hm with rfl | hm'
      · exact ⟨rfl, rfl⟩
      · exact ih m hm'
    | error e =>
      rw [hd] at hm
      exact ih m hm

theorem handle_mcp_flow_status (b : Backend)
    (system_prompt request_id original_message : String) :
    ∀ m ∈ (handle_mcp_flow b system_prompt request_id original_message).msgs,
      m.status = .chunk ∧ m.request_id = request_id := by
  intro m hm
  unfold handle_mcp_flow at hm
  cases h1 : b.phase1 with
  | error e =>
    rw [h1] at hm
    rcases List.mem_singleton.mp hm with rfl
    exact ⟨rfl, rfl⟩
  | ok fm =>
    rw [h1] at hm
    dsimp at hm
    cases hE : fm.tool_calls with
    | nil =>
      rw [hE] at hm
      simp only [List.isEmpty_nil, if_true] at hm
      rcases List.mem_cons.mp hm with rfl | hm'
      · exact ⟨rfl, rfl⟩
      · rcases List.mem_singleton.mp hm' with rfl
        exact ⟨rfl, rfl⟩
    | cons tc0 tcs =>
      rw [hE] at hm
      simp only [List.isEmpty_cons, Bool.false_eq_true, if_false] at hm
      dsimp at hm
      rcases List.mem_cons.mp hm with rfl | hm'
      · exact ⟨rfl, rfl⟩
      · rcases List.mem_cons.mp hm' with rfl | hm''
        · exact ⟨rfl, rfl⟩
        · rcases List.mem_append.mp hm'' with h | h
          · exact dispatchToolCalls_status b.dispatch request_id (tc0 :: tcs) m
              (hE ▸ h)
          · rcases List.mem_cons.mp h with rfl | h'
            · exact ⟨rfl, rfl⟩
            · obtain ⟨s, _, rfl⟩ := List.mem_map.mp h'
              exact ⟨rfl, rfl⟩

theorem genFlow_status (b : Backend) (system_prompt message request_id : String)
    (tools : Option (List ToolDef)) (use_mcp : Bool) :
    ∀ m ∈ (genFlow b system_prompt message request_id tools use_mcp).msgs,
      m.status = .chunk ∧ m.request_id = request_id := by
  intro m hm
  cases hc : (!use_mcp || toolsFalsy tools) with
  | true =>
    simp only [genFlow, hc, if_true] at hm
    exact handle_standard_flow_status b request_id tools m hm
  | false =>
    simp only [genFlow, hc, Bool.false_eq_true, if_false] at hm
    exact handle_mcp_flow_status b system_prompt request_id message m hm

/-- C1: every turn driven by `generate_response` with a given `request_id`
emits exactly one terminal message (status `complete` or `error`) for that
`request_id`, as the last message of the turn — every message of the turn
carries the given `request_id`, the trace splits as a terminal-free prefix
followed by a single terminal message, and nothing follows it. -/
theorem generate_response_unique_terminal (b : Backend)
    (system_prompt message request_id : String) (tools : Option (List ToolDef))
    (use_mcp : Bool) :
    (∀ m ∈ generate_response b system_prompt message request_id tools use_mcp,
        m.request_id = request_id) ∧
    ∃ pre t,
      generate_response b system_prompt message request_id tools use_mcp = pre ++ [t] ∧
      isTerminal t = true ∧ ∀ m ∈ pre, isTerminal m = false := by
  constructor
  · intro m hm
    unfold generate_response at hm
    rcases List.mem_cons.mp hm with rfl | hm'
    · rfl
    · rcases List.mem_append.mp hm' with h | h
      · exact (genFlow_status b system_prompt message request_id tools use_mcp m h).2
      · rcases List.mem_singleton.mp h with rfl
        exact terminalOf_request_id request_id _
  · refine ⟨processingMsg request_id message ::
      (genFlow b system_prompt message request_id tools use_mcp).msgs,
      terminalOf request_id
        (genFlow b system_prompt message request_id tools use_mcp).exc, rfl,
      isTerminal_terminalOf request_id _, ?_⟩
    intro m hm
    rcases List.mem_cons.mp hm with rfl | hm'
    · rfl
    · exact isTerminal_of_chunk
        (genFlow_status b system_prompt message request_id tools use_mcp m hm').1

/-- The chunk type an envelope carries, if any. -/
def chunkTypeOf (m : ServerMessage) : Option ChunkType :=
  m.chunk.bind (·.type)

theorem toolsFalsy_some_of_ne {tools : List ToolDef} (h : tools ≠ []) :
    toolsFalsy (some tools) = false := by
  cases tools with
  | nil => exact absurd rfl h
  | cons a l => rfl

theorem genFlow_mcp_eq (b : Backend) (system_prompt message request_id : String)
    {tools : List ToolDef} (htools : tools ≠ []) :
    genFlow b system_prompt message request_id (some tools) true =
      handle_mcp_flow b system_prompt request_id message := by
  unfold genFlow
  rw [if_neg (by simp [toolsFalsy_some_of_ne htools])]

theorem handle_mcp_flow_eq (b : Backend) (system_prompt request_id original_message : String)
    (fm : FirstMessage) (h1 : b.phase1 = .ok fm) (hne : fm.tool_calls ≠ []) :
    handle_mcp_flow b system_prompt request_id original_message =
      ⟨startMsg request_id :: announceMsg request_id fm.tool_calls.length
         :: (dispatchToolCalls b.dispatch request_id fm.tool_calls).1
         ++ finalMarkerMsg request_id
         :: ((b.phase2 (secondPhaseConv system_prompt original_message fm
               (dispatchToolCalls b.dispatch request_id fm.tool_calls).2)).1.filter
                 (fun s => !s.isEmpty)).map (fun s => textChunkMsg request_id s []),
       secondPhaseConv system_prompt original_message fm
         (dispatchToolCalls b.dispatch request_id fm.tool_calls).2,
       (b.phase2 (secondPhaseConv system_prompt original_message fm
          (dispatchToolCalls b.dispatch request_id fm.tool_calls).2)).2⟩ := by
  have hE : fm.tool_calls.isEmpty = false := by
    cases h : fm.tool_calls with
    | nil => exact absurd h hne
    | cons a l => rfl
  unfold handle_mcp_flow
  rw [h1]
  dsimp
  rw [if_neg (by simp [hE])]

/-- C2: the first message `generate_response` emits is a `processing` status
echoing the inbound text in its chunk metadata, independently of every
backend outcome (hence before any backend call); and when the two-phase flow
runs and the discovery call proposes zero tool calls, the turn's whole trace
is one `processing`, text chunks only (the fixed start chunk and the
answer), and one `complete`, with no `tool_call` or `tool_result` chunks. -/
theorem generate_response_processing_first_no_tool_flow (b : Backend)
    (system_prompt message request_id : String) (tools : List ToolDef)
    (htools : tools ≠ []) (fm : FirstMessage) (h1 : b.phase1 = .ok fm)
    (h0 : fm.tool_calls = []) :
    (∀ (b' : Backend) (sp' : String) (tools' : Option (List ToolDef)) (u' : Bool),
        (generate_response b' sp' message request_id tools' u').head? =
          some (processingMsg request_id message)) ∧
    generate_response b system_prompt message request_id (some tools) true =
      [processingMsg request_id message, startMsg request_id,
       textChunkMsg request_id (pyOrD fm.content "No response generated") [],
       completeMsg request_id] ∧
    ∀ m ∈ generate_response b system_prompt message request_id (some tools) true,
      chunkTypeOf m ≠ some .tool_call ∧ chunkTypeOf m ≠ some .tool_result := by
  have hflow : handle_mcp_flow b system_prompt request_id message =
      ⟨[startMsg request_id,
        textChunkMsg request_id (pyOrD fm.content "No response generated") []], [], none⟩ := by
    unfold handle_mcp_flow
    rw [h1]
    dsimp
    rw [h0]
    rfl
  have htrace : generate_response b system_prompt message request_id (some tools) true =
      [processingMsg request_id message, startMsg request_id,
       textChunkMsg request_id (pyOrD fm.content "No response generated") [],
       completeMsg request_id] := by
    unfold generate_response
    rw [genFlow_mcp_eq b system_prompt message request_id htools, hflow]
    rfl
  refine ⟨fun b' sp' tools' u' => rfl, htrace, ?_⟩
  intro m hm
  rw [htrace] at hm
  simp only [List.mem_cons, List.not_mem_nil, or_false] at hm
  rcases hm with rfl | rfl | rfl | rfl <;>
    exact ⟨by simp [chunkTypeOf, processingMsg, startMsg, textChunkMsg, completeMsg],
           by simp [chunkTypeOf, processingMsg, startMsg, textChunkMsg, completeMsg]⟩

/-- A backend whose discovery call returns plain text and no tool calls. -/
def backendNoToolCalls : Backend where
  stream := false
  streamEvents := []
  streamExc := none
  nonStreamContent := .ok none
  phase1 := .ok ⟨some "Hi there!", []⟩
  dispatch := fun _ => .error "unused"
  phase2 := fun _ => ([], none)

theorem generate_response_unique_terminal_witness :
    (∀ m ∈ generate_response backendNoToolCalls "sys" "ping" "r0" none false,
        m.request_id = "r0") ∧
    ∃ pre t,
      generate_response backendNoToolCalls "sys" "ping" "r0" none false = pre ++ [t] ∧
      isTerminal t = true ∧ ∀ m ∈ pre, isTerminal m = false :=
  generate_response_unique_terminal backendNoToolCalls "sys" "ping" "r0" none false

theorem generate_response_processing_first_no_tool_flow_witness :
    (∀ (b' : Backend) (sp' : String) (tools' : Option (List ToolDef)) (u' : Bool),
        (generate_response b' sp' "hello" "r1" tools' u').head? =
          some (processingMsg "r1" "hello")) ∧
    generate_response backendNoToolCalls "sys" "hello" "r1"
        (some [⟨"web_search", "search the web"⟩]) true =
      [processingMsg "r1" "hello", startMsg "r1",
       textChunkMsg "r1" (pyOrD (some "Hi there!") "No response generated") [],
       completeMsg "r1"] ∧
    ∀ m ∈ generate_response backendNoToolCalls "sys" "hello" "r1"
        (some [⟨"web_search", "search the web"⟩]) true,
      chunkTypeOf m ≠ some .tool_call ∧ chunkTypeOf m ≠ some .tool_result :=
  generate_response_processing_first_no_tool_flow backendNoToolCalls "sys" "hello" "r1"
    [⟨"web_search", "search the web"⟩] (by simp) ⟨some "Hi there!", []⟩ rfl rfl

theorem dispatchToolCalls_conv_error (dispatch : OpenAIToolCall → Except String ToolResult)
    (request_id : String) (calls : List OpenAIToolCall) (tc : OpenAIToolCall) (e : String)
    (htc : tc ∈ calls) (hd : dispatch tc = .error e) :
    ChatMessage.toolMsg tc.id (.errorObj e) ∈
      (dispatchToolCalls dispatch request_id calls).2 := by
  induction calls with
  | nil => exact absurd htc (List.not_mem_nil tc)
  | cons c rest ih =>
    unfold dispatchToolCalls
    rcases List.mem_cons.mp htc with rfl | htc'
    · rw [hd]
      exact List.mem_cons_self _ _
    · cases hdc : dispatch c with
      | ok r => exact List.mem_cons_of_mem _ (ih htc')
      | error e' => exact List.mem_cons_of_mem _ (ih htc')

theorem dispatchToolCalls_conv_result_mem
    (dispatch : OpenAIToolCall → Except String ToolResult) (request_id : String)
    (calls : List OpenAIToolCall) (i : String) (r : ToolResult)
    (hmem : ChatMessage.toolMsg i (.resultDump r) ∈
      (dispatchToolCalls dispatch request_id calls).2) :
    ∃ tc, tc ∈ calls ∧ tc.id = i ∧ dispatch tc = .ok r := by
  induction calls with
  | nil => exact absurd hmem (List.not_mem_nil _)
  | cons c rest ih =>
    unfold dispatchToolCalls at hmem
    cases hdc : dispatch c with
    | ok res =>
      rw [hdc] at hmem
      dsimp at hmem
      rcases List.mem_cons.mp hmem with h | h
      · obtain ⟨hi, hres⟩ := ChatMessage.toolMsg.inj h
        obtain rfl := (ToolMsgContent.resultDump.inj hres)
        exact ⟨c, List.mem_cons_self _ _, hi.symm, hdc⟩
      · obtain ⟨tc, ht1, ht2, ht3⟩ := ih h
        exact ⟨tc, List.mem_cons_of_mem _ ht1, ht2, ht3⟩
    | error e' =>
      rw [hdc] at hmem
      dsimp at hmem
      rcases List.mem_cons.mp hmem with h | h
      · exact absurd (ChatMessage.toolMsg.inj h).2 (fun hh => ToolMsgContent.noConfusion hh)
      · obtain ⟨tc, ht1, ht2, ht3⟩ := ih h
        exact ⟨tc, List.mem_cons_of_mem _ ht1, ht2, ht3⟩

theorem getLast?_cons_append_singleton {α : Type} (a : α) (l : List α) (t : α) :
    (a :: (l ++ [t])).getLast? = some t := by
  induction l generalizing a with
  | nil => rfl
  | cons x xs ih =>
    rw [List.cons_append, List.getLast?_cons_cons]
    exact ih x

/-- C3: a proposed tool call whose dispatch raises (timeout of
`asyncio.wait_for` or any other dispatch failure) gets a tool-role message
with the serialized error object keyed to its call id appended to the
second-phase conversation, in place of a result message, and the turn still
ends with the `complete` terminal (given the final backend call itself
returns normally). -/
theorem tool_failure_degrades_gracefully (b : Backend)
    (system_prompt message request_id : String) (tools : List ToolDef)
    (htools : tools ≠ []) (fm : FirstMessage) (h1 : b.phase1 = .ok fm)
    (hnd : (fm.tool_calls.map (·.id)).Nodup)
    (tc : OpenAIToolCall) (htc : tc ∈ fm.tool_calls) (e : String)
    (hd : b.dispatch tc = .error e)
    (h2 : ∀ conv, (b.phase2 conv).2 = none) :
    ChatMessage.toolMsg tc.id (.errorObj e) ∈
      (handle_mcp_flow b system_prompt request_id message).conv ∧
    (∀ r, ChatMessage.toolMsg tc.id (.resultDump r) ∉
      (handle_mcp_flow b system_prompt request_id message).conv) ∧
    (generate_response b system_prompt message request_id (some tools) true).getLast? =
      some (completeMsg request_id) := by
  have hne : fm.tool_calls ≠ [] := by
    intro h
    rw [h] at htc
    exact absurd htc (List.not_mem_nil tc)
  have hfe := handle_mcp_flow_eq b system_prompt request_id message fm h1 hne
  refine ⟨?_, ?_, ?_⟩
  · rw [hfe]
    exact List.mem_cons_of_mem _ (List.mem_cons_of_mem _ (List.mem_cons_of_mem _
      (dispatchToolCalls_conv_error b.dispatch request_id fm.tool_calls tc e htc hd)))
  · intro r hr
    rw [hfe] at hr
    dsimp [secondPhaseConv] at hr
    rcases List.mem_cons.mp hr with h | h
    · exact ChatMessage.noConfusion h
    rcases List.mem_cons.mp h with h' | h'
    · exact ChatMessage.noConfusion h'
    rcases List.mem_cons.mp h' with h'' | h''
    · exact ChatMessage.noConfusion h''
    obtain ⟨c, hc, hcid, hcok⟩ :=
      dispatchToolCalls_conv_result_mem b.dispatch request_id fm.tool_calls tc.id r h''
    have : c = tc := List.inj_on_of_nodup_map hnd hc htc hcid
    rw [this, hd] at hcok
    exact Except.noConfusion hcok
  · unfold generate_response
    rw [genFlow_mcp_eq b system_prompt message request_id htools, hfe]
    dsimp
    rw [h2]
    exact getLast?_cons_append_singleton _ _ _

/-- A backend proposing two tool calls, the second of which times out. -/
def backendOneTimeout : Backend where
  stream := false
  streamEvents := []
  streamExc := none
  nonStreamContent := .ok none
  phase1 := .ok ⟨none, [⟨"call_1", "web_search", "q"⟩, ⟨"call_2", "search_web", "q"⟩]⟩
  dispatch := fun tc =>
    if tc.id = "call_2" then .error "timed out" else .ok ⟨"success", some "42", none⟩
  phase2 := fun _ => (["All done."], none)

theorem tool_failure_degrades_gracefully_witness :
    ChatMessage.toolMsg "call_2" (.errorObj "timed out") ∈
      (handle_mcp_flow backendOneTimeout "sys" "r2" "hello").conv ∧
    (∀ r, ChatMessage.toolMsg "call_2" (.resultDump r) ∉
      (handle_mcp_flow backendOneTimeout "sys" "r2" "hello").conv) ∧
    (generate_response backendOneTimeout "sys" "hello" "r2"
        (some [⟨"web_search", "search the web"⟩]) true).getLast? =
      some (completeMsg "r2") :=
  tool_failure_degrades_gracefully backendOneTimeout "sys" "hello" "r2"
    [⟨"web_search", "search the web"⟩] (by simp)
    ⟨none, [⟨"call_1", "web_search", "q"⟩, ⟨"call_2", "search_web", "q"⟩]⟩ rfl
    (by simp) ⟨"call_2", "search_web", "q"⟩ (by simp) "timed out" rfl
    (fun _ => rfl)

/-- Whether an envelope is a `tool_result` chunk whose metadata carries
`tool_id = i` (the adapter stores the originating call's id there). -/
def hasToolResultId (i : String) (m : ServerMessage) : Bool :=
  match m.status, m.chunk with
  | .chunk, some ch =>
    match ch.type, ch.metadata with
    | some .tool_result, some md => decide (md.lookup "tool_id" = some (.s i))
    | _, _ => false
  | _, _ => false

theorem hasToolResultId_toolProgress (i request_id : String) (tc : OpenAIToolCall) :
    hasToolResultId i (toolProgressMsg request_id tc) = decide (tc.id = i) := by
  simp [hasToolResultId, toolProgressMsg, List.lookup]

theorem hasToolResultId_text (i request_id s : String) (md : List (String × MetaVal)) :
    hasToolResultId i (textChunkMsg request_id s md) = false := rfl

theorem countP_text_map (i request_id : String) (l : List String) :
    (l.map (fun s => textChunkMsg request_id s [])).countP (hasToolResultId i) = 0 := by
  rw [List.countP_eq_zero]
  intro m hm
  obtain ⟨s, _, rfl⟩ := List.mem_map.mp hm
  simp [hasToolResultId_text]

theorem dispatchToolCalls_countP_zero
    (dispatch : OpenAIToolCall → Except String ToolResult) (request_id : String)
    (calls : List OpenAIToolCall) (i : String) (hni : i ∉ calls.map (·.id)) :
    (dispatchToolCalls dispatch request_id calls).1.countP (hasToolResultId i) = 0 := by
  induction calls with
  | nil => rfl
  | cons c rest ih =>
    have hni' : i ∉ rest.map (·.id) :=
      fun h => hni (List.mem_cons_of_mem _ h)
    have hci : ¬(c.id = i) :=
      fun h => hni (h ▸ List.mem_cons_self _ _)
    unfold dispatchToolCalls
    cases hdc : dispatch c with
    | ok r =>
      dsimp
      rw [List.countP_cons, ih hni', hasToolResultId_toolProgress]
      simp [hci]
    | error e =>
      dsimp
      exact ih hni'

theorem dispatchToolCalls_countP_one
    (dispatch : OpenAIToolCall → Except String ToolResult) (request_id : String)
    (calls : List OpenAIToolCall) (hnd : (calls.map (·.id)).Nodup)
    (tc : OpenAIToolCall) (htc : tc ∈ calls) (r : ToolResult)
    (hok : dispatch tc = .ok r) :
    (dispatchToolCalls dispatch request_id calls).1.countP (hasToolResultId tc.id) = 1 := by
  induction calls with
  | nil => exact absurd htc (List.not_mem_nil tc)
  | cons c rest ih =>
    obtain ⟨hcnot, hndr⟩ := List.nodup_cons.mp hnd
    rcases List.mem_cons.mp htc with rfl | htc'
    · unfold dispatchToolCalls
      rw [hok]
      dsimp
      rw [List.countP_cons, dispatchToolCalls_countP_zero dispatch request_id rest tc.id hcnot,
        hasToolResultId_toolProgress]
      simp
    · have hcid : ¬(c.id = tc.id) := by
        intro h
        refine hcnot ?_
        show c.id ∈ rest.map (·.id)
        rw [h]
        exact List.mem_map_of_mem (·.id) htc'
      unfold dispatchToolCalls
      cases hdc : dispatch c with
      | ok res =>
        dsimp
        rw [List.countP_cons, ih hndr htc', hasToolResultId_toolProgress]
        simp [hcid]
      | error e =>
        dsimp
        exact ih hndr htc'

/-- C4: when the discovery call proposes `N > 0` tool calls, the turn's
trace is exactly: `processing`, the start chunk, one announce text chunk
stating that `N` tool calls will execute tagged
`metadata.phase = tool_execution` (before any dispatch message), the
dispatch-loop messages, the final-response marker, the final-phase text
chunks, and `complete`; and each successfully dispatched call — assuming
the backend assigns the calls distinct ids — yields exactly one
`tool_result` chunk carrying that call's id in the whole trace. -/
theorem mcp_flow_announce_and_tool_results (b : Backend)
    (system_prompt message request_id : String) (tools : List ToolDef)
    (htools : tools ≠ []) (fm : FirstMessage) (h1 : b.phase1 = .ok fm)
    (hne : fm.tool_calls ≠ []) (hnd : (fm.tool_calls.map (·.id)).Nodup)
    (texts : List String) (h2 : ∀ conv, b.phase2 conv = (texts, none)) :
    generate_response b system_prompt message request_id (some tools) true =
      processingMsg request_id message :: startMsg request_id
        :: announceMsg request_id fm.tool_calls.length
        :: (dispatchToolCalls b.dispatch request_id fm.tool_calls).1
        ++ finalMarkerMsg request_id
        :: (texts.filter (fun s => !s.isEmpty)).map (fun s => textChunkMsg request_id s [])
        ++ [completeMsg request_id] ∧
    ∀ tc ∈ fm.tool_calls, ∀ r, b.dispatch tc = .ok r →
      (generate_response b system_prompt message request_id (some tools) true).countP
        (hasToolResultId tc.id) = 1 := by
  have hfe := handle_mcp_flow_eq b system_prompt request_id message fm h1 hne
  have htrace : generate_response b system_prompt message request_id (some tools) true =
      processingMsg request_id message :: startMsg request_id
        :: announceMsg request_id fm.tool_calls.length
        :: (dispatchToolCalls b.dispatch request_id fm.tool_calls).1
        ++ finalMarkerMsg request_id
        :: (texts.filter (fun s => !s.isEmpty)).map (fun s => textChunkMsg request_id s [])
        ++ [completeMsg request_id] := by
    unfold generate_response
    rw [genFlow_mcp_eq b system_prompt message request_id htools, hfe]
    dsimp
    rw [h2]
    rfl
  refine ⟨htrace, ?_⟩
  intro tc htc r hok
  rw [htrace]
  simp only [List.countP_cons, List.countP_append, countP_text_map,
    dispatchToolCalls_countP_one b.dispatch request_id fm.tool_calls hnd tc htc r hok]
  simp [hasToolResultId, processingMsg, startMsg, announceMsg, finalMarkerMsg, textChunkMsg,
    completeMsg]

/-- A backend proposing a single tool call that dispatches successfully. -/
def backendOneSuccess : Backend where
  stream := false
  streamEvents := []
  streamExc := none
  nonStreamContent := .ok none
  phase1 := .ok ⟨none, [⟨"call_9", "web_search", "q"⟩]⟩
  dispatch := fun _ => .ok ⟨"success", some "result text", none⟩
  phase2 := fun _ => (["Here is the answer."], none)

theorem mcp_flow_announce_and_tool_results_witness :
    generate_response backendOneSuccess "sys" "hi" "r3"
        (some [⟨"web_search", "search the web"⟩]) true =
      processingMsg "r3" "hi" :: startMsg "r3" :: announceMsg "r3" 1
        :: (dispatchToolCalls backendOneSuccess.dispatch "r3"
              [⟨"call_9", "web_search", "q"⟩]).1
        ++ finalMarkerMsg "r3"
        :: (["Here is the answer."].filter (fun s => !s.isEmpty)).map
             (fun s => textChunkMsg "r3" s [])
        ++ [completeMsg "r3"] ∧
    ∀ tc ∈ [(⟨"call_9", "web_search", "q"⟩ : OpenAIToolCall)],
      ∀ r, backendOneSuccess.dispatch tc = .ok r →
        (generate_response backendOneSuccess "sys" "hi" "r3"
            (some [⟨"web_search", "search the web"⟩]) true).countP
          (hasToolResultId tc.id) = 1 := by
  have h := mcp_flow_announce_and_tool_results backendOneSuccess "sys" "hi" "r3"
    [⟨"web_search", "search the web"⟩] (by simp) ⟨none, [⟨"call_9", "web_search", "q"⟩]⟩
    rfl (by simp) (by simp) ["Here is the answer."] (fun _ => rfl)
  exact h

/-- A local handler answering any call, used to show the registry is never
consulted while remote clients exist. -/
def localWebBehavior : LocalToolBehavior :=
  fun tc => .returns ⟨tc.id, some "local result", none⟩

/-- C5 (code_bug evidence): with provider `search` configured, a call named
`search_web` is forwarded under its full namespaced name to the nonexistent
`MCPClient.execute_tool`, so dispatch returns the `AttributeError` text as a
per-call error result instead of routing to provider `search`'s tool `web`;
the local registry — even one holding the exact name — is never consulted
while clients exist, and with no clients the registry is probed under the
unstripped name, so a provider-style registry exposing `web` yields the
`Tool not found` error. -/
theorem execute_mcp_tool_no_routing_behavior :
    execute_mcp_tool [mkMCPClient "search"]
      [("search_web", localWebBehavior), ("web", localWebBehavior)]
      ⟨some "call_1", "search_web", .ok [("query", "lean")]⟩ =
      ⟨"error", none, some attrErrMsg⟩ ∧
    execute_mcp_tool [] [("web", localWebBehavior)]
      ⟨some "call_1", "search_web", .ok [("query", "lean")]⟩ =
      ⟨"error", none, some (toolNotFoundMsg "search_web")⟩ := by
  constructor
  · rfl
  · rfl

theorem attrErrMsg_not_empty : attrErrMsg.isEmpty = false := by decide

theorem tryClients_mkMCPClient (call : MCPToolCall) (function_name : String)
    (last_error : Option String) (n0 : String) (names : List String) :
    tryClients call function_name last_error ((n0 :: names).map mkMCPClient) =
      ⟨"error", none, some attrErrMsg⟩ := by
  induction names generalizing last_error n0 with
  | nil =>
    show tryClients call function_name (some attrErrMsg) [] = _
    unfold tryClients
    rw [show pyOrD (some attrErrMsg) (toolNotFoundMsg function_name) = attrErrMsg by
      simp [pyOrD, attrErrMsg_not_empty]]
  | cons n1 rest ih =>
    show tryClients call function_name (some attrErrMsg) ((n1 :: rest).map mkMCPClient) = _
    exact ih (some attrErrMsg) n1

/-- C6 (code_bug evidence): `execute_mcp_tool` does attempt each configured
client in list order and catches every exception, but because `MCPClient`
has no `execute_tool` method, every attempt raises `AttributeError`; for
every nonempty client list the result is the error `ToolResult` recording
that (last) error text, so the claimed "first non-error result" is
unreachable. -/
theorem execute_mcp_tool_attribute_failure :
    (∀ (n0 : String) (names : List String) (registry : Registry) (i : Option String)
        (f : String) (args : List (String × String)),
      execute_mcp_tool ((n0 :: names).map mkMCPClient) registry ⟨i, f, .ok args⟩ =
        ⟨"error", none, some attrErrMsg⟩) ∧
    execute_mcp_tool [mkMCPClient "search", mkMCPClient "weather"] []
      ⟨some "call_7", "search_web", .ok [("query", "lean")]⟩ =
      ⟨"error", none, some attrErrMsg⟩ := by
  constructor
  · intro n0 names registry i f args
    unfold execute_mcp_tool
    dsimp
    exact tryClients_mkMCPClient ⟨i.getD "unknown", f, args⟩ f none n0 names
  · exact tryClients_mkMCPClient ⟨"call_7", "search_web", [("query", "lean")]⟩
      "search_web" none "search" ["weather"]

/-- C7: `MCPClient.call_tool` is total over transport failures — an
exception from `_send_request` becomes a result with `error = str(e)` and
`output = None`, never a raised exception — and every result it returns,
success or error, carries exactly the input call's id as `tool_call_id`. -/
theorem call_tool_total_and_id_preserving (transport : Except String MCPResponse)
    (tool_call : MCPToolCall) :
    (call_tool transport tool_call).tool_call_id = tool_call.id ∧
    ∀ e, transport = .error e →
      call_tool transport tool_call = ⟨tool_call.id, none, some e⟩ := by
  constructor
  · cases transport with
    | error e => rfl
    | ok response =>
      rcases response with ⟨res, err⟩
      cases err with
      | none => rfl
      | some errObj =>
        by_cases he : errObj.isEmpty = true
        · simp [call_tool, he]
        · simp [call_tool, he]
  · intro e h
    rw [h]
    rfl

theorem call_tool_total_and_id_preserving_witness :
    (call_tool (.error "connection refused") ⟨"call_5", "web", []⟩).tool_call_id =
      "call_5" ∧
    ∀ e, (Except.error "connection refused" : Except String MCPResponse) = .error e →
      call_tool (.error "connection refused") ⟨"call_5", "web", []⟩ =
        ⟨"call_5", none, some e⟩ :=
  call_tool_total_and_id_preserving (.error "connection refused") ⟨"call_5", "web", []⟩

/-- C8 (amended): an inbound frame that fails JSON decoding, or a decoded
JSON object violating the envelope schema, is answered immediately with one
local error frame (the bare `{"status", "error"}` dict, which by
construction carries no `request_id`), without invoking the chat handler,
without exiting the receive loop, and without touching the
`active_connections` map; replaying the same such frame twice yields two
independent identical local error frames and again leaves the state
unchanged.  A frame that is valid JSON but not a JSON object takes the
outer exception path instead — see the counterexample. -/
theorem malformed_frame_local_error_idempotent
    (chat : ClientMessage → List ServerMessage) (client_id : String)
    (active_connections : List String) (e : String) :
    (∀ chat' : ClientMessage → List ServerMessage,
        handle_frame chat' client_id active_connections (.malformedJson e) =
          (active_connections, [.localError ("Invalid JSON: " ++ e)], false) ∧
        handle_frame chat' client_id active_connections (.invalidEnvelope e) =
          (active_connections,
           [.localError ("Invalid message format: " ++ e)], false)) ∧
    handle_frames chat client_id active_connections
        [.malformedJson e, .malformedJson e] =
      (active_connections,
       [.localError ("Invalid JSON: " ++ e), .localError ("Invalid JSON: " ++ e)]) ∧
    handle_frames chat client_id active_connections
        [.invalidEnvelope e, .invalidEnvelope e] =
      (active_connections,
       [.localError ("Invalid message format: " ++ e),
        .localError ("Invalid message format: " ++ e)]) :=
  ⟨fun _ => ⟨rfl, rfl⟩, rfl, rfl⟩

/-- C8 counterexample: a frame that is valid JSON but not a JSON object
(for example the document `[1, 2]`) raises `TypeError` at
`ClientMessage(**message_data)`, which neither inner handler catches; the
outer handler sends no local error response and removes the client from
`active_connections` — so the claim as stated ("every malformed inbound
frame" gets a local error "with no residual change to server state, in
particular the active-connections map is unchanged") fails at this input. -/
theorem nonobject_frame_disconnects :
    handle_frame (fun _ => []) "c1" ["c1"]
        (.nonObjectJson "argument after unpacking must be a mapping, not list") =
      ([], [], true) ∧
    (handle_frame (fun _ => []) "c1" ["c1"]
        (.nonObjectJson "argument after unpacking must be a mapping, not list")).1 ≠
      ["c1"] :=
  ⟨rfl, by decide⟩

theorem sessionTrace_no_header (outs : List SendOutcome)
    (h : ∀ o ∈ outs, sessionHeaderOf o = none) (st : Option String) :
    sessionTrace st outs = st := by
  induction outs generalizing st with
  | nil => rfl
  | cons o rest ih =>
    have ho := h o (List.mem_cons_self _ _)
    have hrest : ∀ o' ∈ rest, sessionHeaderOf o' = none :=
      fun o' ho' => h o' (List.mem_cons_of_mem _ ho')
    have hstep : sessionAfter st o = st := by
      cases o with
      | raised e => rfl
      | parseFailed hdr e =>
        cases hdr with
        | none => rfl
        | some t => exact absurd ho (by simp [sessionHeaderOf])
      | responded hdr body =>
        cases hdr with
        | none => rfl
        | some t => exact absurd ho (by simp [sessionHeaderOf])
    rw [show sessionTrace st (o :: rest) = sessionTrace (sessionAfter st o) rest from rfl,
      hstep]
    exact ih hrest st

theorem sessionAfter_of_header {o : SendOutcome} {t : String}
    (ho : sessionHeaderOf o = some t) (st : Option String) :
    sessionAfter st o = some t := by
  cases o with
  | raised e => exact absurd ho (by simp [sessionHeaderOf])
  | parseFailed hdr e =>
    cases hdr with
    | none => exact absurd ho (by simp [sessionHeaderOf])
    | some u =>
      obtain rfl : u = t := Option.some.inj ho
      rfl
  | responded hdr body =>
    cases hdr with
    | none => exact absurd ho (by simp [sessionHeaderOf])
    | some u =>
      obtain rfl : u = t := Option.some.inj ho
      rfl

/-- C9: session stickiness of `MCPClient._send_request` — once any
delivered response carries a (nonempty) `Mcp-Session-Id` token, whether its
body then parsed or not, the stored `_session_id` equals that token (the
latest one received) after any further token-free exchanges, and the
headers of every request built from that state attach exactly the stored
token; and whenever a later response carries a new token, the stored one is
replaced by it, on both the parsed and the body-parse-failure delivery
paths.  The nonempty hypothesis reflects the source: the header is stored
by membership but attached under truthiness, so an empty-string token would
be stored yet not attached. -/
theorem session_token_sticky (st : Option String) (pre post : List SendOutcome)
    (t : String) (hne : t.isEmpty = false) (o : SendOutcome)
    (ho : sessionHeaderOf o = some t)
    (hpost : ∀ o' ∈ post, sessionHeaderOf o' = none) :
    sessionTrace st (pre ++ o :: post) = some t ∧
    requestHeaders (sessionTrace st (pre ++ o :: post)) =
      [("Content-Type", "application/json"), ("Mcp-Session-Id", t)] ∧
    (∀ (st0 : Option String) (u : String),
        (∀ b' : MCPResponse, sessionAfter st0 (.responded (some u) b') = some u) ∧
        (∀ e : String, sessionAfter st0 (.parseFailed (some u) e) = some u)) := by
  have h1 : sessionTrace st (pre ++ o :: post) = some t := by
    unfold sessionTrace
    rw [List.foldl_append]
    show List.foldl sessionAfter
      (sessionAfter (List.foldl sessionAfter st pre) o) post = some t
    rw [sessionAfter_of_header ho (List.foldl sessionAfter st pre)]
    exact sessionTrace_no_header post hpost (some t)
  refine ⟨h1, ?_, fun st0 u => ⟨fun b' => rfl, fun e => rfl⟩⟩
  rw [h1]
  show ("Content-Type", "application/json") ::
    (if t.isEmpty = true then [] else [("Mcp-Session-Id", t)]) = _
  rw [hne]
  rfl

theorem session_token_sticky_witness :
    sessionTrace none
        ([.raised "connection refused"] ++
          .responded (some "tok-1") ⟨some "ok", none⟩ ::
            [.raised "timeout", .parseFailed none "Expecting value",
             .responded none ⟨some "ok", none⟩]) = some "tok-1" ∧
    requestHeaders (sessionTrace none
        ([.raised "connection refused"] ++
          .responded (some "tok-1") ⟨some "ok", none⟩ ::
            [.raised "timeout", .parseFailed none "Expecting value",
             .responded none ⟨some "ok", none⟩])) =
      [("Content-Type", "application/json"), ("Mcp-Session-Id", "tok-1")] ∧
    (∀ (st0 : Option String) (u : String),
        (∀ b' : MCPResponse, sessionAfter st0 (.responded (some u) b') = some u) ∧
        (∀ e : String, sessionAfter st0 (.parseFailed (some u) e) = some u)) :=
  session_token_sticky none [.raised "connection refused"]
    [.raised "timeout", .parseFailed none "Expecting value",
     .responded none ⟨some "ok", none⟩]
    "tok-1" (by decide) (.responded (some "tok-1") ⟨some "ok", none⟩) rfl
    (by intro o' ho'
        rcases List.mem_cons.mp ho' with rfl | ho''
        · rfl
        · rcases List.mem_cons.mp ho'' with rfl | ho3
          · rfl
          · rcases List.mem_singleton.mp ho3 with rfl
            rfl)

/-- C10 (code_bug evidence): when the adapter emits a `tool_call` chunk in
the single-phase flow and at least one MCP client is configured,
`_handle_chat`'s client loop indexes `tool_call_data["name"]` on the parsed
delta dump, whose `name` sits nested under `"function"`; the lookup raises
`KeyError` on the very first client, the turn handler answers with one
`Chat error` envelope, and neither a `tool_result` chunk nor the adapter's
`complete` is ever sent — even though the call's name starts with the
configured client's namespace prefix. -/
theorem handle_chat_tool_call_keyerror :
    handle_chat_responses [⟨"search", fun tc => ⟨tc.id, some "ok", none⟩⟩] "r4"
      [processingMsg "r4" "hi",
       toolCallChunkMsg "r4" ⟨0, "call_1", "search_web", ""⟩,
       completeMsg "r4"] none =
      [processingMsg "r4" "hi",
       toolCallChunkMsg "r4" ⟨0, "call_1", "search_web", ""⟩,
       chatErrorMsg "r4" keyErrName] := rfl

end Illbeback
